import Mathlib

/-!
Shallow embedding of the DAMATS geospatial coverage pipeline
(DAMATS-Server repository) together with proofs about the natural-language
specification of the code.

The embedding follows the Python sources:
* `damats/util/wcs_client.py` — WCS 2.0 protocol client (URI codec,
  OWS exception handling, getCoverage request construction),
* `damats/processes/utils.py` — coverage alignment downloader and the
  2x2 matrix inversion helper,
* `damats/processes/get_pixel_value.py` — pixel value point query,
* `damats/util/clc/rasterize.py` — vector rasterizer bounding box and
  spatial feature filter,
* `damats/util/clc/statistics.py` — confusion statistics engine.

Machine floats of the Python/GDAL code are modelled as exact rationals
(the claims under study concern control flow and exact arithmetic
identities, not rounding), byte strings as Lean `String`/`List Char`,
numpy `int64` counters as `ℕ` (all counts are non-negative pixel
tallies), and I/O effects (directory creation, network requests) as
explicit event traces.
-/

namespace DAMATS

/-! ### URI codec of `damats/util/wcs_client.py`

`RE_SRS = re.compile(r'^http://www.opengis.net/def/crs/EPSG/0/([0-9]+)$')`
`RE_INT = re.compile(r'^http://www.opengis.net/def/interpolation/OGC/1/([^/]+)$')`

The dots of `www.opengis.net` are unescaped regex metacharacters, so in
the patterns they match any single character.  The `$` anchor is
modelled as end-of-input. -/

/-- Characters of the `RE_SRS` pattern before the capture group. -/
def srsPatChars : List Char := "http://www.opengis.net/def/crs/EPSG/0/".data

/-- Characters of the `RE_INT` pattern before the capture group. -/
def intPatChars : List Char := "http://www.opengis.net/def/interpolation/OGC/1/".data

/-- Match a list of literal regex characters against the input, where a `.`
pattern character matches any single input character (unescaped regex dot);
returns the unconsumed input on success. -/
def matchDotPat : List Char → List Char → Option (List Char)
  | [], s => some s
  | _ :: _, [] => none
  | p :: ps, c :: cs => if p = '.' ∨ p = c then matchDotPat ps cs else none

/-- The regex class `[0-9]`. -/
def isAsciiDigit (c : Char) : Bool := '0' ≤ c && c ≤ '9'

/-- Value of a non-empty digit string, as computed by Python `int`. -/
def digitsVal (l : List Char) : ℕ :=
  l.foldl (fun n c => 10 * n + (c.toNat - '0'.toNat)) 0

/-- `parse_srs` of `wcs_client.py`: parse the SRID from an SRS URI;
`none` models the Python `None` returned when `RE_SRS` does not match. -/
def parse_srs (s : String) : Option ℕ :=
  match matchDotPat srsPatChars s.data with
  | none => none
  | some rest =>
    if rest.isEmpty then none
    else if rest.all isAsciiDigit then some (digitsVal rest) else none

/-- Decimal digit characters of a natural number (`"%d"` formatting of a
non-negative integer). -/
def natDigits (n : ℕ) : List Char :=
  if _h : n < 10 then [Char.ofNat (48 + n)]
  else natDigits (n / 10) ++ [Char.ofNat (48 + n % 10)]
decreasing_by exact Nat.div_lt_self (by omega) (by omega)

/-- `pack_srs` of `wcs_client.py`:
`"http://www.opengis.net/def/crs/EPSG/0/%d" % srid`. -/
def pack_srs (srid : ℕ) : String := String.mk (srsPatChars ++ natDigits srid)

/-- `parse_int` of `wcs_client.py`: parse the interpolation method name;
the capture group `[^/]+` is one or more non-slash characters. -/
def parse_int (s : String) : Option String :=
  match matchDotPat intPatChars s.data with
  | none => none
  | some rest =>
    if rest.isEmpty then none
    else if rest.all (fun c => c != '/') then some (String.mk rest) else none

/-- `pack_int` of `wcs_client.py`:
`"http://www.opengis.net/def/interpolation/OGC/1/%s" % int_str`. -/
def pack_int (name : String) : String := String.mk (intPatChars ++ name.data)

/-- The recognized interpolation method names (spec section 6). -/
def recognizedInterpolations : List String :=
  ["nearest-neighbour", "average", "bilinear", "cubic", "cubic-spline",
   "lanczos", "mode"]

/-- Does the input match the `RE_SRS` pattern (with its unescaped dots)? -/
def srsPatternMatches (s : String) : Bool :=
  match matchDotPat srsPatChars s.data with
  | none => false
  | some rest => !rest.isEmpty && rest.all isAsciiDigit

/-- Does the input match the `RE_INT` pattern (with its unescaped dots)? -/
def intPatternMatches (s : String) : Bool :=
  match matchDotPat intPatChars s.data with
  | none => false
  | some rest => !rest.isEmpty && rest.all (fun c => c != '/')

/-- Modelled from the spec: "CRS parameters use the URI form
`http://www.opengis.net/def/crs/EPSG/0/<code>`" — the canonical EPSG URI
form, with literal dots and a non-empty digit code. -/
def isCanonicalEpsgUri (s : String) : Bool :=
  (s.data.take 38 == srsPatChars) &&
  !(s.data.drop 38).isEmpty && (s.data.drop 38).all isAsciiDigit

/-! ### OWS 2.0 exception handling of `damats/util/wcs_client.py`

`parse_ows20_exception` catches an `HTTPError`; when the response
`Content-Type` is `'text/xml'` and the parsed body holds an
`ows:Exception` element it raises `OWSException(code, locator, text)`,
otherwise it re-raises the original `HTTPError`. -/

/-- The `ows:Exception` element of an HTTP error body: its
`exceptionCode` attribute, optional `locator` attribute (`elm.get` with
default `''`), and the text of its `ows:ExceptionText` child. -/
structure OwsExceptionElement where
  exceptionCode : String
  locator : Option String
  text : String
deriving DecidableEq

/-- An HTTP error response as seen by the decorator: its `Content-Type`
header and the `ows:Exception` element found in its body, if any
(`none` covers both non-XML bodies and XML bodies without the element). -/
structure HTTPError where
  contentType : String
  exception : Option OwsExceptionElement
deriving DecidableEq

/-- `OWSException.__init__`: message `"%s%s: %s" % (code, locator, text)`
where a non-empty locator is wrapped as `"(%s)" % locator`. -/
def owsExceptionMessage (code locator text : String) : String :=
  code ++ (if locator ≠ "" then "(" ++ locator ++ ")" else "") ++ ": " ++ text

/-- Outcome of the `parse_ows20_exception` error handler: either the
typed `OWSException` or the original transport error re-raised. -/
inductive ErrorOutcome where
  | owsException (code : String) (locator : String) (text : String)
      (message : String)
  | original (e : HTTPError)
deriving DecidableEq

/-- `parse_ows20_exception` of `wcs_client.py`, applied to a caught
`HTTPError`. -/
def parse_ows20_exception (e : HTTPError) : ErrorOutcome :=
  if e.contentType = "text/xml" then
    match e.exception with
    | none => ErrorOutcome.original e
    | some elm =>
      let code := elm.exceptionCode
      let locator := elm.locator.getD ""
      ErrorOutcome.owsException code locator elm.text
        (owsExceptionMessage code locator elm.text)
  else
    ErrorOutcome.original e

/-! ### 2x2 matrix inversion of `damats/processes/utils.py` -/

/-- `invert_matrix_2x2` of `processes/utils.py`; the `Except.error` value
models the raised `ValueError`. -/
def invert_matrix_2x2 (a00 a01 a10 a11 : ℚ) : Except String (ℚ × ℚ × ℚ × ℚ) :=
  let det := a00 * a11 - a01 * a10
  if det = 0 then
    Except.error "Zero matrix determinant! The matrix cannot be inverted!"
  else
    let rdet := 1 / det
    Except.ok (rdet * a11, -(rdet * a01), -(rdet * a10), rdet * a00)

/-! ### Pixel value extraction of `damats/processes/get_pixel_value.py` -/

/-- A GDAL raster dataset as used by `extract_pixel_value`: pixel
dimensions, the six geotransform parameters, the WGS84-to-image CRS
coordinate transformation (an opaque environment function standing for
`osr.CoordinateTransformation(SR_WGS84, ...).TransformPoint`), and the
per-band pixel values read by `ReadAsArray`. -/
structure PVDataset where
  sizeU : ℕ
  sizeV : ℕ
  x00 : ℚ
  dxu : ℚ
  dxv : ℚ
  y00 : ℚ
  dyu : ℚ
  dyv : ℚ
  ct : ℚ → ℚ → ℚ × ℚ
  pix : ℕ → ℕ → List ℚ

/-- Errors of the pixel value query: the `OutOfExtent` exception, the
`ValueError` of a singular geotransform, and the GDAL error raised by
`ReadAsArray` when the requested 1x1 window lies outside the raster
(GDAL exceptions are enabled). -/
inductive PVError where
  | outOfExtent
  | singularMatrix
  | readError
deriving DecidableEq

/-- `extract_pixel_value` of `get_pixel_value.py`.  The pixel column `u`
and row `v` are obtained by applying the inverted 2x2 geotransform
submatrix to the transformed point and flooring; the guard mirrors the
source literally: `u < 0 or u >= size_u or v < 0 or v > size_v`. -/
def extract_pixel_value (ds : PVDataset) (latitude longitude : ℚ) :
    Except PVError (List ℚ) :=
  let xy := ds.ct longitude latitude
  let dx := xy.1 - ds.x00
  let dy := xy.2 - ds.y00
  match invert_matrix_2x2 ds.dxu ds.dxv ds.dyu ds.dyv with
  | Except.error _ => Except.error PVError.singularMatrix
  | Except.ok (dux, duy, dvx, dvy) =>
    let u : ℤ := ⌊dux * dx + duy * dy⌋
    let v : ℤ := ⌊dvx * dx + dvy * dy⌋
    if u < 0 ∨ u ≥ (ds.sizeU : ℤ) ∨ v < 0 ∨ v > (ds.sizeV : ℤ) then
      Except.error PVError.outOfExtent
    else if u.toNat + 1 ≤ ds.sizeU ∧ v.toNat + 1 ≤ ds.sizeV then
      Except.ok (ds.pix u.toNat v.toNat)
    else
      Except.error PVError.readError

/-- A concrete 1x1 test dataset with the identity geotransform and an
identity CRS transformation: pixel (u, v) covers the unit square
[u, u+1) x [v, v+1), so valid pixel rows/columns are exactly 0. -/
def pvDataset₀ : PVDataset where
  sizeU := 1
  sizeV := 1
  x00 := 0
  dxu := 1
  dxv := 0
  y00 := 0
  dyu := 0
  dyv := 1
  ct := fun lon lat => (lon, lat)
  pix := fun _ _ => [7]

/-- Result of `GetPixelValue.execute` for one raster data item:
`empty` renders as the empty output string, `values` as the
comma-separated `"%.18g"` rendering of the band values (the decimal
formatting itself is not modelled). -/
inductive PVOutput where
  | empty
  | values (vs : List ℚ)
deriving DecidableEq

/-- `GetPixelValue.execute` of `get_pixel_value.py`, for a coverage with
one band data item: `OutOfExtent` is caught and turned into the empty
output, every other exception propagates. -/
def getPixelValue_execute (ds : PVDataset) (latitude longitude : ℚ) :
    Except PVError PVOutput :=
  match extract_pixel_value ds latitude longitude with
  | Except.error PVError.outOfExtent => Except.ok PVOutput.empty
  | Except.error e => Except.error e
  | Except.ok vs => Except.ok (PVOutput.values vs)

/-! ### Coverage alignment downloader of `damats/processes/utils.py`

`download_coverages` is modelled as a pure function from its inputs and
an environment (what the remote WCS service answers and what the
downloaded master file contains) to the trace of its side effects
(directory creation, network requests) and its outcome.  Query-string
rendering of `WCS20Client.get_coverage` is modelled at the parameter
level: a request is the record of parameter values passed, not the
formatted KVP string. -/

/-- The area of interest of a selection: `{left, right, bottom, top}`. -/
structure AOI where
  left : ℚ
  right : ℚ
  bottom : ℚ
  top : ℚ
deriving DecidableEq

/-- A selection; only the `aoi` member is read by `download_coverages`
(`toi` is consumed by the callers when assembling the coverage list). -/
structure Selection where
  aoi : AOI
deriving DecidableEq

/-- The `geotiff` format options dictionary. -/
structure GeoTIFFOptions where
  compression : String
  tiling : String
  tilewidth : ℕ
  tileheight : ℕ
deriving DecidableEq

/-- The `subset` dictionary `{'x': (xmin, xmax), 'y': (ymin, ymax)}`. -/
structure SubsetXY where
  x : ℚ × ℚ
  y : ℚ × ℚ
deriving DecidableEq

/-- The `size` dictionary `{'x': size_x, 'y': size_y}`. -/
structure SizeXY where
  x : ℕ
  y : ℕ
deriving DecidableEq

/-- The keyword parameters of `WCS20Client.get_coverage`; `none` models
an omitted (Python `None`) parameter. -/
structure GetCoverageParams where
  format : Option String
  subset : Option SubsetXY
  subsetting_srid : Option ℤ
  output_srid : Option ℤ
  scale : Option ℚ
  size : Option SizeXY
  interpolation : Option String
  geotiff : Option GeoTIFFOptions
deriving DecidableEq

/-- Observable side effects of `download_coverages`: directory creation
and the two kinds of WCS network requests. -/
inductive Event where
  | mkdir (dir : String)
  | describeCoverage (coverageId : String)
  | getCoverage (coverageId : String) (params : GetCoverageParams)
deriving DecidableEq

/-- A downloaded GeoTIFF file as read back by `gdal.Open`: pixel
dimensions and the six geotransform parameters. -/
structure RasterInfo where
  sizeX : ℕ
  sizeY : ℕ
  gt0 : ℚ
  gt1 : ℚ
  gt2 : ℚ
  gt3 : ℚ
  gt4 : ℚ
  gt5 : ℚ
deriving DecidableEq

/-- `get_size_and_subset` of `processes/utils.py`: size and subset
parameters derived from the geotransform and pixel dimensions of an
existing image (the four-corner affine transform of the upper-left and
bottom-right pixel corners). -/
def get_size_and_subset (ds : RasterInfo) : SizeXY × SubsetXY :=
  let transform := fun (x y : ℚ) =>
    (ds.gt0 + ds.gt1 * x + ds.gt2 * y, ds.gt3 + ds.gt4 * x + ds.gt5 * y)
  let ul := transform 0 0
  let br := transform ds.sizeX ds.sizeY
  (⟨ds.sizeX, ds.sizeY⟩, ⟨(ul.1, br.1), (br.2, ul.2)⟩)

/-- The `base_options` shared by all requests of one
`download_coverages` session. -/
def base_options (interp_method : String) : GetCoverageParams where
  format := some "image/tiff"
  subset := none
  subsetting_srid := none
  output_srid := none
  scale := none
  size := none
  interpolation := some interp_method
  geotiff := some ⟨"None", "true", 256, 256⟩

/-- Options of the first (master) image: AOI subset in EPSG:4326 and the
caller's scaling factor (the `output_srid` entry is added inside the
download loop once the master description is fetched). -/
def master_options (aoi : AOI) (scaling_factor : ℚ) (interp_method : String) :
    GetCoverageParams :=
  { base_options interp_method with
    subsetting_srid := some 4326
    subset := some ⟨(aoi.left, aoi.right), (aoi.bottom, aoi.top)⟩
    scale := some scaling_factor }

/-- Options of the slave images: both SRIDs set to the master's native
SRID and size/subset taken from the downloaded master file; no scale. -/
def slave_options (interp_method : String) (output_srid : Option ℤ)
    (master_file : RasterInfo) : GetCoverageParams :=
  let ss := get_size_and_subset master_file
  { base_options interp_method with
    subsetting_srid := output_srid
    output_srid := output_srid
    size := some ss.1
    subset := some ss.2 }

/-- The CRS-extension fallback of `WCS20Client.get_coverage`: when a
subsetting SRID is given but no output SRID, the output SRID is resolved
by an extra `describeCoverage` request.  `descSrid` is the environment:
the (parsed, possibly absent) SRID the service declares per coverage.
Returns the emitted network events, ending with the `getCoverage`
request itself. -/
def client_get_coverage (descSrid : String → Option ℤ) (identifier : String)
    (p : GetCoverageParams) : List Event :=
  if p.subsetting_srid.isSome ∧ p.output_srid = none then
    [Event.describeCoverage identifier,
     Event.getCoverage identifier { p with output_srid := descSrid identifier }]
  else
    [Event.getCoverage identifier p]

/-- The download loop of `download_coverages`: on the first iteration the
master SRID is queried via `describeCoverage` and, after the master
download, the options are switched to the slave options derived from the
master file.  Returns the event trace and the list of downloaded file
paths. -/
def dc_loop (descSrid : String → Option ℤ) (master_file : RasterInfo)
    (interp_method : String) (output_dir : String) :
    GetCoverageParams → Bool → List String → List Event × List String
  | _, _, [] => ([], [])
  | opts, first, c :: rest =>
    let opts' := if first then { opts with output_srid := descSrid c } else opts
    let evDescribe := if first then [Event.describeCoverage c] else []
    let evGet := client_get_coverage descSrid c opts'
    let filename := output_dir ++ "/" ++ c ++ ".tif"
    let nextOpts :=
      if first then slave_options interp_method (descSrid c) master_file
      else opts'
    let res := dc_loop descSrid master_file interp_method output_dir nextOpts
      false rest
    (evDescribe ++ evGet ++ res.1, filename :: res.2)

/-- `download_coverages` of `processes/utils.py`.  `descSrid` models the
remote service's coverage descriptions, `master_file` the content of the
master GeoTIFF once downloaded.  The output directory is created before
the loop; the `EmptySITSError` check (`if not images`) follows the loop. -/
def download_coverages (coverages : List String) (selection : Selection)
    (output_dir : String) (scaling_factor : ℚ) (interp_method : String)
    (descSrid : String → Option ℤ) (master_file : RasterInfo) :
    List Event × Except String (List String) :=
  let opts := master_options selection.aoi scaling_factor interp_method
  let res := dc_loop descSrid master_file interp_method output_dir opts true
    coverages
  let events := Event.mkdir output_dir :: res.1
  if res.2 = [] then
    (events,
     Except.error "The SITS is empty and there is no image to be processed!")
  else
    (events, Except.ok res.2)

/-- The `getCoverage` requests of a trace, in order. -/
def getCoverageRequests (events : List Event) :
    List (String × GetCoverageParams) :=
  events.filterMap fun e =>
    match e with
    | Event.getCoverage id p => some (id, p)
    | _ => none

/-- Is an event a `describeCoverage` request? -/
def isDescribeEvent (e : Event) : Bool :=
  match e with
  | Event.describeCoverage _ => true
  | _ => false

/-- Is an event a network request (as opposed to a filesystem effect)? -/
def isNetworkEvent (e : Event) : Bool :=
  match e with
  | Event.mkdir _ => false
  | _ => true

/-! ### Vector rasterizer of `damats/util/clc/rasterize.py` -/

/-- Python `min` of a list of floats; the list is never empty at the call
sites (`points_to_extent` is applied to the five-corner outline). -/
def listMin : List ℚ → ℚ
  | [] => 0
  | x :: xs => xs.foldl min x

/-- Python `max` of a list of floats (same remark as `listMin`). -/
def listMax : List ℚ → ℚ
  | [] => 0
  | x :: xs => xs.foldl max x

/-- `points_to_extent` of `clc/rasterize.py`: `[minx, miny, maxx, maxy]`
of an outline. -/
def points_to_extent (outline : List (ℚ × ℚ)) : ℚ × ℚ × ℚ × ℚ :=
  (listMin (outline.map Prod.fst), listMin (outline.map Prod.snd),
   listMax (outline.map Prod.fst), listMax (outline.map Prod.snd))

/-- `get_bbox` of `clc/rasterize.py`: the template image bounding box in
the target spatial reference, expanded by `expand_by`.  `target_ct`
models the `osr.CoordinateTransformation` to the target reference
(`none` when no target reference is given). -/
def get_bbox (ds : RasterInfo) (target_ct : Option (ℚ × ℚ → ℚ × ℚ))
    (expand_by : ℚ) : ℚ × ℚ × ℚ × ℚ :=
  let size_x : ℚ := ds.sizeX
  let size_y : ℚ := ds.sizeY
  let corners :=
    [((0 : ℚ), (0 : ℚ)), (size_x, 0), (size_x, size_y), (0, size_y), (0, 0)].map
      fun p => (ds.gt0 + ds.gt1 * p.1 + ds.gt2 * p.2,
                ds.gt3 + ds.gt4 * p.1 + ds.gt5 * p.2)
  let corners :=
    match target_ct with
    | some ct => corners.map fun p => ct p
    | none => corners
  let bbox := points_to_extent corners
  if expand_by ≠ 0 then
    let (minx, miny, maxx, maxy) := bbox
    let dx := (1 / 2 : ℚ) * expand_by * (maxx - minx)
    let dy := (1 / 2 : ℚ) * expand_by * (maxy - miny)
    (minx - dx, miny - dy, maxx + dx, maxy + dy)
  else
    bbox

/-- The rectangle `fetch_features` of `clc/rasterize.py` passes to
`SetSpatialFilterRect`.  The source unpacks the box as
`minx, minx, maxx, maxy = bbox` — the second target is `minx` again
(not `miny`) — and then calls
`layer.SetSpatialFilterRect(minx, minx, maxx, maxy)`, so the second
component of the box overwrites the first. -/
def fetch_features_filter_rect (bbox : ℚ × ℚ × ℚ × ℚ) : ℚ × ℚ × ℚ × ℚ :=
  let (_, b1, b2, b3) := bbox
  (b1, b1, b2, b3)

/-! ### Confusion statistics engine of `damats/util/clc/statistics.py` -/

/-- A GDAL raster as used by `calculate_2d_class_histogram`: pixel
dimensions, band count, the band data type code and the pixel values of
band 1 (`pix x y` is the value at column `x`, row `y`). -/
structure Raster where
  xSize : ℕ
  ySize : ℕ
  bands : ℕ
  dataType : ℕ
  pix : ℕ → ℕ → ℕ

/-- The GDAL `GDT_Byte` data type code. -/
def GDT_Byte : ℕ := 1

/-- Clip an index into `[0, dim-1]` — the `mode='clip'` semantics of
`numpy.ravel_multi_index` for a non-negative index. -/
def clip_idx (i dim : ℕ) : ℕ := min i (dim - 1)

/-- `ravel_multi_index((i, j), (d0, d1), mode='clip', order='C')`. -/
def ravel_index_clip (i j d0 d1 : ℕ) : ℕ := clip_idx i d0 * d1 + clip_idx j d1

/-- Elementwise pairing of the two raveled (row-major) tile windows
`data1.ravel()`, `data2.ravel()` read from the two bands. -/
def tile_pairs (b1 b2 : Raster) (offx offy tsx tsy : ℕ) : List (ℕ × ℕ) :=
  (List.range tsy).flatMap fun y =>
    (List.range tsx).map fun x =>
      (b1.pix (offx + x) (offy + y), b2.pix (offx + x) (offy + y))

/-- Cell `(i, j)` of `bincount_multivar(multi_index, dims=(d0, d1))` of
`clc/statistics.py`: the number of index pairs whose clipped raveled
index equals the raveled cell position (the `minlength=prod(dims)`
bincount reshaped to `(d0, d1)` row-major). -/
def bincount_multivar (pairs : List (ℕ × ℕ)) (d0 d1 : ℕ) (i j : ℕ) : ℕ :=
  (pairs.map fun p => ravel_index_clip p.1 p.2 d0 d1).count (i * d1 + j)

/-- Number of tiles covering `size` pixels: `1 + (size - 1)//tile` (for
`size ≥ 1` this equals the Python expression; rasters are non-empty). -/
def ntiles (size tile : ℕ) : ℕ := 1 + (size - 1) / tile

/-- Size of the tile at `offset`: `min(tile_size, size - offset)`. -/
def tsize (tile size offset : ℕ) : ℕ := min tile (size - offset)

/-- The fixed tile edge of `_get_raw_pixel_counts`. -/
def TILE : ℕ := 256

/-- Cell `(i, j)` of the matrix returned by `_get_raw_pixel_counts` of
`clc/statistics.py`: the zero-initialized `(d0, d1)` matrix accumulated
with `bincount_multivar` over all tiles (summation order is immaterial
for the commutative addition of counters). -/
def get_raw_pixel_counts (b1 b2 : Raster) (d0 d1 : ℕ) (i j : ℕ) : ℕ :=
  ∑ ty ∈ Finset.range (ntiles b1.ySize TILE),
    ∑ tx ∈ Finset.range (ntiles b1.xSize TILE),
      bincount_multivar
        (tile_pairs b1 b2 (tx * TILE) (ty * TILE)
          (tsize TILE b1.xSize (tx * TILE)) (tsize TILE b1.ySize (ty * TILE)))
        d0 d1 i j

/-- The integer count matrix produced by the statistics engine: its two
dimensions and its cells (meaningful for `i < dim0`, `j < dim1`). -/
structure Matrix2D where
  dim0 : ℕ
  dim1 : ℕ
  entry : ℕ → ℕ → ℕ

/-- `calculate_2d_class_histogram` of `clc/statistics.py`: the three
precondition checks followed by the tiled accumulation into a
`(n_class + 1) × (n_class_ref + 1)` matrix. -/
def calculate_2d_class_histogram (img_class img_class_ref : Raster)
    (n_class n_class_ref : ℕ) : Except String Matrix2D :=
  if img_class.xSize ≠ img_class_ref.xSize ∨
      img_class.ySize ≠ img_class_ref.ySize then
    Except.error "Image size mismatch!"
  else if img_class.bands ≠ 1 ∨ img_class_ref.bands ≠ 1 then
    Except.error "Band count mismatch!"
  else if img_class.dataType ≠ GDT_Byte ∨ img_class_ref.dataType ≠ GDT_Byte then
    Except.error "Unexpected image datatype!"
  else
    Except.ok
      ⟨n_class + 1, n_class_ref + 1,
       get_raw_pixel_counts img_class img_class_ref (n_class + 1)
         (n_class_ref + 1)⟩

/-- A land cover class record of the reference class table. -/
structure LandCoverClass where
  index : ℕ
  title : String
  colour : ℕ × ℕ × ℕ × ℕ
deriving DecidableEq

/-- `max(c['index'] for c in ref_classes)`; the generator `max` requires
a non-empty table (for non-empty tables of naturals the fold equals the
Python `max`). -/
def max_class_index (classes : List LandCoverClass) : ℕ :=
  (classes.map LandCoverClass.index).foldl max 0

/-- The histogram computed by `write_class_statistics` of
`clc/statistics.py`:
`calculate_2d_class_histogram(img_class, img_class_ref, n_class,
max(c['index'] for c in ref_classes))`. -/
def write_class_statistics_counts (img_class img_class_ref : Raster)
    (n_class : ℕ) (ref_classes : List LandCoverClass) :
    Except String Matrix2D :=
  calculate_2d_class_histogram img_class img_class_ref n_class
    (max_class_index ref_classes)

end DAMATS

namespace DAMATS

/-! ### Lemmas about the URI codec -/

theorem matchDotPat_append (p s : List Char) : matchDotPat p (p ++ s) = some s := by
  induction p with
  | nil => rfl
  | cons c cs ih =>
    simp only [List.cons_append, matchDotPat]
    simp [ih]

theorem charOfNat_digit_toNat (d : ℕ) (hd : d < 10) :
    (Char.ofNat (48 + d)).toNat = 48 + d := by
  interval_cases d <;> decide

theorem isAsciiDigit_charOfNat (d : ℕ) (hd : d < 10) :
    isAsciiDigit (Char.ofNat (48 + d)) = true := by
  interval_cases d <;> decide

theorem digitsVal_append_singleton (l : List Char) (c : Char) :
    digitsVal (l ++ [c]) = 10 * digitsVal l + (c.toNat - '0'.toNat) := by
  simp [digitsVal, List.foldl_append]

theorem natDigits_ne_nil (n : ℕ) : natDigits n ≠ [] := by
  rw [natDigits]
  split <;> simp

theorem natDigits_all_digits (n : ℕ) : (natDigits n).all isAsciiDigit = true := by
  induction n using Nat.strong_induction_on with
  | _ n ih =>
    rw [natDigits]
    split
    · simp [isAsciiDigit_charOfNat n (by omega)]
    · rename_i h
      have h10 : n / 10 < n := Nat.div_lt_self (by omega) (by omega)
      simp only [List.all_append, ih (n / 10) h10, Bool.true_and, List.all_cons,
        List.all_nil, Bool.and_true]
      exact isAsciiDigit_charOfNat (n % 10) (Nat.mod_lt n (by omega))

theorem digitsVal_natDigits (n : ℕ) : digitsVal (natDigits n) = n := by
  induction n using Nat.strong_induction_on with
  | _ n ih =>
    rw [natDigits]
    split
    · rename_i h
      simp [digitsVal, charOfNat_digit_toNat n h]
    · rename_i h
      have h10 : n / 10 < n := Nat.div_lt_self (by omega) (by omega)
      rw [digitsVal_append_singleton, ih (n / 10) h10,
        charOfNat_digit_toNat (n % 10) (Nat.mod_lt n (by omega))]
      have h0 : ('0' : Char).toNat = 48 := by decide
      rw [h0]
      omega

theorem parse_srs_pack_srs (c : ℕ) : parse_srs (pack_srs c) = some c := by
  unfold parse_srs pack_srs
  simp only [String.data]
  rw [matchDotPat_append]
  simp [natDigits_ne_nil c, natDigits_all_digits c, digitsVal_natDigits c,
    List.isEmpty_iff]

theorem parse_int_pack_int (name : String) (h1 : name.data ≠ [])
    (h2 : name.data.all (fun c => c != '/') = true) :
    parse_int (pack_int name) = some name := by
  unfold parse_int pack_int
  simp only [String.data]
  rw [matchDotPat_append]
  simp [h1, h2, List.isEmpty_iff]

theorem parse_srs_of_not_matches (s : String) (h : srsPatternMatches s = false) :
    parse_srs s = none := by
  unfold parse_srs
  unfold srsPatternMatches at h
  cases hm : matchDotPat srsPatChars s.data with
  | none => rfl
  | some rest =>
    rw [hm] at h
    simp only [Bool.and_eq_false_iff, Bool.not_eq_false'] at h
    rcases h with h | h
    · simp [h]
    · simp [h]

theorem parse_int_of_not_matches (s : String) (h : intPatternMatches s = false) :
    parse_int s = none := by
  unfold parse_int
  unfold intPatternMatches at h
  cases hm : matchDotPat intPatChars s.data with
  | none => rfl
  | some rest =>
    rw [hm] at h
    simp only [Bool.and_eq_false_iff, Bool.not_eq_false'] at h
    rcases h with h | h
    · simp [h]
    · simp [h]

/-- C8 (amended): for every positive EPSG code the SRS URI round-trips
through `pack_srs`/`parse_srs`, and `parse_srs` returns `none` (never
raises — it is a total function into an option) on every string not
matching the code's URI pattern, in which the two unescaped regex dots
match any character; likewise every recognized interpolation name
round-trips through `pack_int`/`parse_int`, and `parse_int` returns
`none` on strings not matching its pattern. -/
theorem C8_uri_codec_roundtrip :
    (∀ c : ℕ, 0 < c → parse_srs (pack_srs c) = some c) ∧
    (∀ s : String, srsPatternMatches s = false → parse_srs s = none) ∧
    (∀ n ∈ recognizedInterpolations, parse_int (pack_int n) = some n) ∧
    (∀ s : String, intPatternMatches s = false → parse_int s = none) := by
  refine ⟨fun c _ => parse_srs_pack_srs c, parse_srs_of_not_matches, ?_,
    parse_int_of_not_matches⟩
  intro n hn
  refine parse_int_pack_int n ?_ ?_ <;>
    · fin_cases hn <;> decide

/-- C8 counterexample: the URI below differs from the canonical EPSG URI
form (the first dot of `www.opengis.net` is replaced by `X`), yet
`parse_srs` parses it to `4326` instead of returning `none`, because the
dots of the `RE_SRS` pattern are unescaped regex metacharacters. -/
theorem C8_counterexample_dot_wildcard :
    isCanonicalEpsgUri "http://wwwXopengis.net/def/crs/EPSG/0/4326" = false ∧
    parse_srs "http://wwwXopengis.net/def/crs/EPSG/0/4326" = some 4326 := by
  constructor
  · decide
  · decide

/-- C8 witness: the round-trip and the `none` results at concrete inputs,
via `C8_uri_codec_roundtrip`. -/
theorem C8_uri_codec_roundtrip_witness :
    (0 < 4326 ∧ parse_srs (pack_srs 4326) = some 4326) ∧
    (srsPatternMatches "mailto:bob" = false ∧ parse_srs "mailto:bob" = none) ∧
    ("bilinear" ∈ recognizedInterpolations ∧
      parse_int (pack_int "bilinear") = some "bilinear") ∧
    (intPatternMatches "mailto:bob" = false ∧ parse_int "mailto:bob" = none) :=
  ⟨⟨by decide, C8_uri_codec_roundtrip.1 4326 (by decide)⟩,
   ⟨by decide, C8_uri_codec_roundtrip.2.1 "mailto:bob" (by decide)⟩,
   ⟨by decide, C8_uri_codec_roundtrip.2.2.1 "bilinear" (by decide)⟩,
   ⟨by decide, C8_uri_codec_roundtrip.2.2.2 "mailto:bob" (by decide)⟩⟩

/-! ### Theorems about `invert_matrix_2x2` -/

/-- C9: `invert_matrix_2x2` fails with the domain error exactly when the
determinant `a00*a11 - a01*a10` is zero, never returning a result in
that case; for a nonzero determinant it returns, without error, four
entries forming a (two-sided, here verified row-wise) inverse of the
input matrix. -/
theorem C9_invert_det_guard (a00 a01 a10 a11 : ℚ) :
    (a00 * a11 - a01 * a10 = 0 →
      invert_matrix_2x2 a00 a01 a10 a11 =
        Except.error "Zero matrix determinant! The matrix cannot be inverted!") ∧
    (a00 * a11 - a01 * a10 ≠ 0 →
      ∃ b00 b01 b10 b11,
        invert_matrix_2x2 a00 a01 a10 a11 = Except.ok (b00, b01, b10, b11) ∧
        a00 * b00 + a01 * b10 = 1 ∧ a00 * b01 + a01 * b11 = 0 ∧
        a10 * b00 + a11 * b10 = 0 ∧ a10 * b01 + a11 * b11 = 1) := by
  constructor
  · intro h
    simp [invert_matrix_2x2, h]
  · intro h
    refine ⟨1 / (a00 * a11 - a01 * a10) * a11,
      -(1 / (a00 * a11 - a01 * a10) * a01),
      -(1 / (a00 * a11 - a01 * a10) * a10),
      1 / (a00 * a11 - a01 * a10) * a00, ?_, ?_, ?_, ?_, ?_⟩
    · simp [invert_matrix_2x2, h]
    · field_simp
      ring
    · field_simp
      ring
    · field_simp
      ring
    · field_simp
      ring

/-- C9 witness: a singular and a regular concrete matrix, via
`C9_invert_det_guard`. -/
theorem C9_invert_det_guard_witness :
    ((1 : ℚ) * 1 - 1 * 1 = 0 ∧
      invert_matrix_2x2 1 1 1 1 =
        Except.error "Zero matrix determinant! The matrix cannot be inverted!") ∧
    ((1 : ℚ) * 4 - 2 * 3 ≠ 0 ∧
      ∃ b00 b01 b10 b11,
        invert_matrix_2x2 1 2 3 4 = Except.ok (b00, b01, b10, b11) ∧
        1 * b00 + 2 * b10 = 1 ∧ 1 * b01 + 2 * b11 = 0 ∧
        3 * b00 + 4 * b10 = 0 ∧ 3 * b01 + 4 * b11 = 1) :=
  ⟨⟨by norm_num, (C9_invert_det_guard 1 1 1 1).1 (by norm_num)⟩,
   ⟨by norm_num, (C9_invert_det_guard 1 2 3 4).2 (by norm_num)⟩⟩

/-! ### Theorems about `parse_ows20_exception` -/

/-- C7: an HTTP error with XML content type (`'text/xml'`) whose body
holds an OWS 2.0 Exception element is raised as the single typed
`OWSException` carrying the exception code, the optional locator
(defaulting to the empty string) and the exception text; every other
transport error — non-XML content type, or XML without the fault
element — propagates to the caller unmodified. -/
theorem C7_exception_handler (e : HTTPError) :
    (∀ elm, e.contentType = "text/xml" → e.exception = some elm →
      parse_ows20_exception e =
        ErrorOutcome.owsException elm.exceptionCode (elm.locator.getD "")
          elm.text
          (owsExceptionMessage elm.exceptionCode (elm.locator.getD "")
            elm.text)) ∧
    (e.contentType ≠ "text/xml" ∨ e.exception = none →
      parse_ows20_exception e = ErrorOutcome.original e) := by
  constructor
  · intro elm h1 h2
    simp [parse_ows20_exception, h1, h2]
  · intro h
    rcases h with h | h
    · simp [parse_ows20_exception, h]
    · unfold parse_ows20_exception
      rw [h]
      split <;> rfl

/-- C7 witness: a structured XML fault and a non-XML error at concrete
inputs, via `C7_exception_handler`. -/
theorem C7_exception_handler_witness :
    (HTTPError.contentType ⟨"text/xml",
        some ⟨"InvalidParameterValue", some "subset", "Invalid subset."⟩⟩ =
        "text/xml" ∧
      parse_ows20_exception
        ⟨"text/xml",
          some ⟨"InvalidParameterValue", some "subset", "Invalid subset."⟩⟩ =
        ErrorOutcome.owsException "InvalidParameterValue" "subset"
          "Invalid subset."
          (owsExceptionMessage "InvalidParameterValue" "subset"
            "Invalid subset.")) ∧
    (HTTPError.contentType ⟨"text/html", none⟩ ≠ "text/xml" ∧
      parse_ows20_exception ⟨"text/html", none⟩ =
        ErrorOutcome.original ⟨"text/html", none⟩) :=
  ⟨⟨rfl,
    (C7_exception_handler
      ⟨"text/xml",
        some ⟨"InvalidParameterValue", some "subset", "Invalid subset."⟩⟩).1
      ⟨"InvalidParameterValue", some "subset", "Invalid subset."⟩ rfl rfl⟩,
   ⟨by decide,
    (C7_exception_handler ⟨"text/html", none⟩).2 (Or.inl (by decide))⟩⟩

/-! ### Theorems about the pixel value query -/

/-- C5 (code bug): querying latitude 3/2, longitude 1/2 on the 1x1 test
raster maps to pixel row v = 1 = size_v, outside the raster extent
(valid rows are 0..size_v-1), yet the operation does not return the
empty result: the guard `u < 0 or u >= size_u or v < 0 or v > size_v`
uses a strict comparison for the bottom row (`v > size_v` instead of
`v >= size_v`), so no `OutOfExtent` is raised, and the subsequent 1x1
`ReadAsArray` window at row size_v fails — a hard failure contradicting
the process's documented empty-string contract for out-of-extent
queries. -/
theorem C5_boundary_row_hard_failure :
    extract_pixel_value pvDataset₀ (3 / 2) (1 / 2) =
      Except.error PVError.readError ∧
    getPixelValue_execute pvDataset₀ (3 / 2) (1 / 2) =
      Except.error PVError.readError ∧
    getPixelValue_execute pvDataset₀ (3 / 2) (1 / 2) ≠
      Except.ok PVOutput.empty := by
  have hext : extract_pixel_value pvDataset₀ (3 / 2) (1 / 2) =
      Except.error PVError.readError := by
    unfold extract_pixel_value pvDataset₀ invert_matrix_2x2
    norm_num
  refine ⟨hext, ?_, ?_⟩
  · unfold getPixelValue_execute
    rw [hext]
  · unfold getPixelValue_execute
    rw [hext]
    simp

/-! ### Theorems about the vector rasterizer spatial filter -/

/-- C1 (code bug): for the 10x10 template with geotransform
(0, 1, 0, 0, 0, -1) and margin 0.2 = 1/5, `get_bbox` yields the expanded
box (minx, miny, maxx, maxy) = (-1, -11, 11, 1), but `fetch_features`
applies the spatial filter rectangle (-11, -11, 11, 1): the tuple
unpacking `minx, minx, maxx, maxy = bbox` overwrites min-x with min-y,
so the applied filter rectangle differs from the expanded box computed
by `get_bbox`, contradicting the claimed selection rectangle. -/
theorem C1_spatial_filter_rect_mismatch :
    get_bbox ⟨10, 10, 0, 1, 0, 0, 0, -1⟩ none (1 / 5) = (-1, -11, 11, 1) ∧
    fetch_features_filter_rect
        (get_bbox ⟨10, 10, 0, 1, 0, 0, 0, -1⟩ none (1 / 5)) =
      (-11, -11, 11, 1) ∧
    fetch_features_filter_rect
        (get_bbox ⟨10, 10, 0, 1, 0, 0, 0, -1⟩ none (1 / 5)) ≠
      get_bbox ⟨10, 10, 0, 1, 0, 0, 0, -1⟩ none (1 / 5) := by
  have hbox : get_bbox ⟨10, 10, 0, 1, 0, 0, 0, -1⟩ none (1 / 5) =
      (-1, -11, 11, 1) := by
    unfold get_bbox points_to_extent listMin listMax
    norm_num
  refine ⟨hbox, ?_, ?_⟩
  · rw [hbox]
    rfl
  · rw [hbox]
    simp only [fetch_features_filter_rect]
    norm_num

/-! ### Theorems about the statistics matrix dimensions -/

/-- C2 (amended): for every call of `write_class_statistics` with a
classifier-declared class count n_class and a non-empty reference class
table with maximum declared class index M, the confusion matrix is
allocated with dimensions (n_class+1) x (M+1): the first (classifier)
axis comes from n_class and only the second (reference) axis is
independent of it. -/
theorem C2_matrix_dimensions (img img_ref : Raster) (n_class : ℕ)
    (ref_classes : List LandCoverClass) (_hne : ref_classes ≠ [])
    (hx : img.xSize = img_ref.xSize) (hy : img.ySize = img_ref.ySize)
    (hb1 : img.bands = 1) (hb2 : img_ref.bands = 1)
    (ht1 : img.dataType = GDT_Byte) (ht2 : img_ref.dataType = GDT_Byte) :
    ∃ m, write_class_statistics_counts img img_ref n_class ref_classes =
        Except.ok m ∧
      m.dim0 = n_class + 1 ∧ m.dim1 = max_class_index ref_classes + 1 := by
  have hcalc : write_class_statistics_counts img img_ref n_class ref_classes =
      Except.ok ⟨n_class + 1, max_class_index ref_classes + 1,
        get_raw_pixel_counts img img_ref (n_class + 1)
          (max_class_index ref_classes + 1)⟩ := by
    unfold write_class_statistics_counts calculate_2d_class_histogram
    rw [if_neg (by simp [hx, hy]), if_neg (by simp [hb1, hb2]),
      if_neg (by simp [ht1, ht2])]
  exact ⟨_, hcalc, rfl, rfl⟩

/-- C2 counterexample: for two 1x1 byte rasters, classifier class count
n_class = 2 and a reference table whose maximum class index is M = 5,
the allocated matrix is 3 x 6, not (M+1) x (M+1) = 6 x 6. -/
theorem C2_counterexample_first_axis :
    ∃ m, write_class_statistics_counts ⟨1, 1, 1, 1, fun _ _ => 0⟩
        ⟨1, 1, 1, 1, fun _ _ => 0⟩ 2 [⟨5, "Water", (0, 0, 255, 255)⟩] =
        Except.ok m ∧
      (m.dim0, m.dim1) = (3, 6) ∧ (m.dim0, m.dim1) ≠ (5 + 1, 5 + 1) := by
  refine ⟨_, rfl, rfl, by decide⟩

/-- C2 witness: the amended dimension statement at concrete inputs, via
`C2_matrix_dimensions`. -/
theorem C2_matrix_dimensions_witness :
    ([⟨5, "Water", (0, 0, 255, 255)⟩] ≠ ([] : List LandCoverClass)) ∧
    ∃ m, write_class_statistics_counts ⟨1, 1, 1, 1, fun _ _ => 0⟩
        ⟨1, 1, 1, 1, fun _ _ => 1⟩ 2 [⟨5, "Water", (0, 0, 255, 255)⟩] =
        Except.ok m ∧
      m.dim0 = 2 + 1 ∧
      m.dim1 = max_class_index [⟨5, "Water", (0, 0, 255, 255)⟩] + 1 :=
  ⟨by decide,
   C2_matrix_dimensions _ _ 2 _ (by decide) rfl rfl rfl rfl rfl rfl⟩

/-! ### Theorems about the coverage alignment downloader -/

theorem dc_loop_not_first (descSrid : String → Option ℤ) (mf : RasterInfo)
    (interp dir : String) (opts : GetCoverageParams)
    (h : ¬(opts.subsetting_srid.isSome ∧ opts.output_srid = none)) :
    ∀ l : List String,
      dc_loop descSrid mf interp dir opts false l =
        (l.map fun c => Event.getCoverage c opts,
         l.map fun c => dir ++ "/" ++ c ++ ".tif") := by
  intro l
  induction l with
  | nil => rfl
  | cons c rest ih =>
    simp only [dc_loop, if_neg, Bool.false_eq_true, ite_false]
    rw [client_get_coverage, if_neg h, ih]
    rfl

theorem download_coverages_cons (c : String) (rest : List String)
    (sel : Selection) (dir : String) (sf : ℚ) (interp : String)
    (descSrid : String → Option ℤ) (mf : RasterInfo) (msrid : ℤ)
    (hsrid : descSrid c = some msrid) :
    download_coverages (c :: rest) sel dir sf interp descSrid mf =
      (Event.mkdir dir :: Event.describeCoverage c ::
        Event.getCoverage c
          { master_options sel.aoi sf interp with output_srid := some msrid } ::
        rest.map (fun c' =>
          Event.getCoverage c' (slave_options interp (some msrid) mf)),
       Except.ok ((dir ++ "/" ++ c ++ ".tif") ::
         rest.map fun c' => dir ++ "/" ++ c' ++ ".tif")) := by
  unfold download_coverages
  simp only [dc_loop, if_pos, ite_true, hsrid]
  rw [client_get_coverage]
  rw [if_neg (by simp [master_options])]
  rw [dc_loop_not_first descSrid mf interp dir _ (by simp [slave_options]) rest]
  simp

/-- C4 (amended): called with an empty coverage identifier list,
`download_coverages` fails with `EmptySITSError` without issuing any
network request (no describeCoverage and no getCoverage call) — but
only after creating the output directory: the emptiness check
(`if not images`) follows the (empty) download loop, which `makedirs`
precedes, so the directory creation is the one state change performed
on this error path. -/
theorem C4_empty_sits (sel : Selection) (dir : String) (sf : ℚ)
    (interp : String) (descSrid : String → Option ℤ) (mf : RasterInfo) :
    (download_coverages [] sel dir sf interp descSrid mf).2 =
      Except.error "The SITS is empty and there is no image to be processed!" ∧
    (download_coverages [] sel dir sf interp descSrid mf).1 =
      [Event.mkdir dir] ∧
    (download_coverages [] sel dir sf interp descSrid mf).1.filter
      isNetworkEvent = [] ∧
    Event.mkdir dir ∈ (download_coverages [] sel dir sf interp descSrid mf).1 := by
  refine ⟨rfl, rfl, rfl, ?_⟩
  simp [download_coverages, dc_loop]

/-- C4 counterexample: at a concrete empty-list call the operation does
raise `EmptySITSError`, but the output directory has already been
created (the `mkdir` effect is in the trace), refuting "before creating
the output directory ... no state is changed on this error". -/
theorem C4_counterexample_mkdir_first :
    (download_coverages [] ⟨⟨10, 11, 45, 46⟩⟩ "out" 1 "nearest-neighbour"
        (fun _ => none) ⟨1, 1, 0, 1, 0, 0, 0, 1⟩).2 =
      Except.error "The SITS is empty and there is no image to be processed!" ∧
    Event.mkdir "out" ∈
      (download_coverages [] ⟨⟨10, 11, 45, 46⟩⟩ "out" 1 "nearest-neighbour"
        (fun _ => none) ⟨1, 1, 0, 1, 0, 0, 0, 1⟩).1 := by
  refine ⟨rfl, ?_⟩
  simp [download_coverages, dc_loop]

/-- C6: for every non-empty coverage list whose master coverage has a
resolvable native SRID, every getCoverage request after the first
(master) one carries subsetting SRID and output SRID both equal to the
master's native SRID, subset and size equal to the Grid Reference values
derived by `get_size_and_subset` from the downloaded master file's
geotransform and pixel dimensions (not the AOI), the same interpolation
method and GeoTIFF options as the session's base options, and no scale
parameter. -/
theorem C6_slave_request_params (coverages : List String) (sel : Selection)
    (dir : String) (sf : ℚ) (interp : String) (descSrid : String → Option ℤ)
    (mf : RasterInfo) (c : String) (rest : List String)
    (hc : coverages = c :: rest) (msrid : ℤ) (hsrid : descSrid c = some msrid)
    (q : String × GetCoverageParams)
    (hq : q ∈ (getCoverageRequests
      (download_coverages coverages sel dir sf interp descSrid mf).1).drop 1) :
    q.2.subsetting_srid = some msrid ∧ q.2.output_srid = some msrid ∧
    q.2.subset = some (get_size_and_subset mf).2 ∧
    q.2.size = some (get_size_and_subset mf).1 ∧
    q.2.interpolation = some interp ∧
    q.2.geotiff = (base_options interp).geotiff ∧
    q.2.scale = none ∧ q.2.format = some "image/tiff" := by
  subst hc
  rw [download_coverages_cons c rest sel dir sf interp descSrid mf msrid hsrid]
    at hq
  simp only [getCoverageRequests, List.filterMap_cons, List.filterMap_map,
    List.drop_succ_cons, List.drop_zero] at hq
  rw [List.mem_filterMap] at hq
  obtain ⟨c', hc', hq⟩ := hq
  simp only [Function.comp] at hq
  cases hq
  exact ⟨rfl, rfl, rfl, rfl, rfl, rfl, rfl, rfl⟩

/-- C6 witness: a concrete two-coverage session; the slave request for
coverage B carries the master grid values, via `C6_slave_request_params`. -/
theorem C6_slave_request_params_witness :
    (("B", slave_options "average" (some 32633) ⟨2, 2, 100, 10, 0, 200, 0, -10⟩)
        ∈ (getCoverageRequests
            (download_coverages ["A", "B"] ⟨⟨10, 11, 45, 46⟩⟩ "out" 1 "average"
              (fun _ => some 32633) ⟨2, 2, 100, 10, 0, 200, 0, -10⟩).1).drop 1) ∧
    ((slave_options "average" (some 32633)
        ⟨2, 2, 100, 10, 0, 200, 0, -10⟩).subsetting_srid = some 32633 ∧
      (slave_options "average" (some 32633)
        ⟨2, 2, 100, 10, 0, 200, 0, -10⟩).output_srid = some 32633 ∧
      (slave_options "average" (some 32633)
          ⟨2, 2, 100, 10, 0, 200, 0, -10⟩).subset =
        some (get_size_and_subset ⟨2, 2, 100, 10, 0, 200, 0, -10⟩).2 ∧
      (slave_options "average" (some 32633)
          ⟨2, 2, 100, 10, 0, 200, 0, -10⟩).size =
        some (get_size_and_subset ⟨2, 2, 100, 10, 0, 200, 0, -10⟩).1 ∧
      (slave_options "average" (some 32633)
          ⟨2, 2, 100, 10, 0, 200, 0, -10⟩).interpolation = some "average" ∧
      (slave_options "average" (some 32633)
          ⟨2, 2, 100, 10, 0, 200, 0, -10⟩).geotiff =
        (base_options "average").geotiff ∧
      (slave_options "average" (some 32633)
          ⟨2, 2, 100, 10, 0, 200, 0, -10⟩).scale = none ∧
      (slave_options "average" (some 32633)
          ⟨2, 2, 100, 10, 0, 200, 0, -10⟩).format = some "image/tiff") := by
  have hq : ("B", slave_options "average" (some 32633)
      ⟨2, 2, 100, 10, 0, 200, 0, -10⟩)
      ∈ (getCoverageRequests
          (download_coverages ["A", "B"] ⟨⟨10, 11, 45, 46⟩⟩ "out" 1 "average"
            (fun _ => some 32633) ⟨2, 2, 100, 10, 0, 200, 0, -10⟩).1).drop 1 := by
    rw [download_coverages_cons "A" ["B"] ⟨⟨10, 11, 45, 46⟩⟩ "out" 1 "average"
      (fun _ => some 32633) ⟨2, 2, 100, 10, 0, 200, 0, -10⟩ 32633 rfl]
    simp [getCoverageRequests]
  exact ⟨hq,
    C6_slave_request_params ["A", "B"] ⟨⟨10, 11, 45, 46⟩⟩ "out" 1 "average"
      (fun _ => some 32633) ⟨2, 2, 100, 10, 0, 200, 0, -10⟩ "A" ["B"] rfl
      32633 rfl _ hq⟩

/-- C10: for every non-empty coverage list of length n whose master
coverage has a resolvable native SRID, the downloader issues exactly one
describeCoverage request (for the master, to resolve its native SRID)
and exactly n getCoverage requests: since an output SRID is passed
explicitly with every getCoverage call, the client's internal
describeCoverage fallback never fires. -/
theorem C10_one_describe_n_getcoverage (coverages : List String)
    (sel : Selection) (dir : String) (sf : ℚ) (interp : String)
    (descSrid : String → Option ℤ) (mf : RasterInfo) (c : String)
    (rest : List String) (hc : coverages = c :: rest) (msrid : ℤ)
    (hsrid : descSrid c = some msrid) :
    (download_coverages coverages sel dir sf interp descSrid mf).1.countP
      isDescribeEvent = 1 ∧
    (getCoverageRequests
      (download_coverages coverages sel dir sf interp descSrid mf).1).length =
      coverages.length := by
  subst hc
  rw [download_coverages_cons c rest sel dir sf interp descSrid mf msrid hsrid]
  constructor
  · simp [List.countP_cons, List.countP_map, isDescribeEvent, Function.comp,
      List.countP_eq_zero]
  · simp [getCoverageRequests, List.filterMap_cons, List.filterMap_map,
      Function.comp]

/-- C10 witness: the request counts of a concrete two-coverage session,
via `C10_one_describe_n_getcoverage`. -/
theorem C10_one_describe_n_getcoverage_witness :
    (download_coverages ["A", "B"] ⟨⟨10, 11, 45, 46⟩⟩ "out" 1 "average"
        (fun _ => some 32633) ⟨2, 2, 100, 10, 0, 200, 0, -10⟩).1.countP
      isDescribeEvent = 1 ∧
    (getCoverageRequests
      (download_coverages ["A", "B"] ⟨⟨10, 11, 45, 46⟩⟩ "out" 1 "average"
        (fun _ => some 32633) ⟨2, 2, 100, 10, 0, 200, 0, -10⟩).1).length =
      (["A", "B"] : List String).length :=
  C10_one_describe_n_getcoverage ["A", "B"] ⟨⟨10, 11, 45, 46⟩⟩ "out" 1
    "average" (fun _ => some 32633) ⟨2, 2, 100, 10, 0, 200, 0, -10⟩ "A" ["B"]
    rfl 32633 rfl

/-! ### Theorems about the confusion statistics engine -/

theorem sum_count_range (l : List ℕ) (N : ℕ) (hl : ∀ r ∈ l, r < N) :
    ∑ r ∈ Finset.range N, l.count r = l.length := by
  induction l with
  | nil => simp
  | cons a t ih =>
    have ha : a < N := hl a (List.mem_cons_self a t)
    have iht := ih fun r hr => hl r (List.mem_cons_of_mem a hr)
    simp only [List.count_cons, List.length_cons]
    rw [Finset.sum_add_distrib, iht]
    have hone : (∑ x ∈ Finset.range N, if a == x then 1 else 0) = 1 := by
      simp only [beq_iff_eq]
      rw [Finset.sum_ite_eq (Finset.range N) a fun _ => 1]
      simp [ha]
    rw [hone]

theorem sum_range_min_add {M : Type} [AddCommMonoid M] (f : ℕ → M)
    (A T S : ℕ) :
    (∑ x ∈ Finset.range (min A S), f x) +
      ∑ k ∈ Finset.range (min T (S - A)), f (A + k) =
    ∑ x ∈ Finset.range (min (A + T) S), f x := by
  by_cases hS : S ≤ A
  · have h1 : min A S = S := min_eq_right hS
    have h2 : S - A = 0 := by omega
    have h3 : min (A + T) S = S := min_eq_right (by omega)
    rw [h1, h2, h3]
    simp
  · push_neg at hS
    have h1 : min A S = A := min_eq_left (by omega)
    have key : min (A + T) S = A + min T (S - A) := by omega
    rw [h1, key, Finset.sum_range_add]

theorem sum_tiles {M : Type} [AddCommMonoid M] (f : ℕ → M) (T S : ℕ)
    (n : ℕ) :
    ∑ t ∈ Finset.range n, ∑ k ∈ Finset.range (min T (S - t * T)), f (t * T + k)
      = ∑ x ∈ Finset.range (min (n * T) S), f x := by
  induction n with
  | zero => simp
  | succ n ih =>
    rw [Finset.sum_range_succ, ih, Nat.succ_mul]
    exact sum_range_min_add f (n * T) T S

theorem sum_range_mul_decompose {M : Type} [AddCommMonoid M] (f : ℕ → M)
    (d0 d1 : ℕ) :
    ∑ i ∈ Finset.range d0, ∑ j ∈ Finset.range d1, f (i * d1 + j) =
      ∑ x ∈ Finset.range (d0 * d1), f x := by
  have h := sum_tiles f d1 (d0 * d1) d0
  rw [min_self] at h
  rw [← h]
  refine Finset.sum_congr rfl fun t ht => ?_
  rw [Finset.mem_range] at ht
  have hsub : d0 * d1 - t * d1 = (d0 - t) * d1 := (Nat.sub_mul d0 t d1).symm
  have hmin : min d1 (d0 * d1 - t * d1) = d1 := by
    rw [hsub]
    refine min_eq_left ?_
    calc d1 = 1 * d1 := (one_mul d1).symm
      _ ≤ (d0 - t) * d1 := Nat.mul_le_mul_right d1 (by omega)
  rw [hmin]

theorem ravel_lt (i j d0 d1 : ℕ) (h0 : 0 < d0) (h1 : 0 < d1) :
    ravel_index_clip i j d0 d1 < d0 * d1 := by
  unfold ravel_index_clip clip_idx
  have hi : min i (d0 - 1) ≤ d0 - 1 := min_le_right _ _
  have hj : min j (d1 - 1) ≤ d1 - 1 := min_le_right _ _
  have hstep : min i (d0 - 1) * d1 + min j (d1 - 1) ≤
      (d0 - 1) * d1 + (d1 - 1) :=
    Nat.add_le_add (Nat.mul_le_mul_right d1 hi) hj
  have heq : (d0 - 1) * d1 = d0 * d1 - d1 := by
    rw [Nat.sub_mul, one_mul]
  have hd1 : d1 ≤ d0 * d1 := by
    calc d1 = 1 * d1 := (one_mul d1).symm
      _ ≤ d0 * d1 := Nat.mul_le_mul_right d1 h0
  refine lt_of_le_of_lt hstep ?_
  generalize hP : d0 * d1 = P at heq hd1 ⊢
  generalize hQ : (d0 - 1) * d1 = Q at heq ⊢
  omega

theorem sum_bincount (pairs : List (ℕ × ℕ)) (d0 d1 : ℕ) (h0 : 0 < d0)
    (h1 : 0 < d1) :
    ∑ i ∈ Finset.range d0, ∑ j ∈ Finset.range d1,
      bincount_multivar pairs d0 d1 i j = pairs.length := by
  unfold bincount_multivar
  rw [sum_range_mul_decompose
    (fun r => (pairs.map fun p => ravel_index_clip p.1 p.2 d0 d1).count r)
    d0 d1]
  rw [sum_count_range]
  · rw [List.length_map]
  · intro r hr
    rw [List.mem_map] at hr
    obtain ⟨p, _, rfl⟩ := hr
    exact ravel_lt p.1 p.2 d0 d1 h0 h1

theorem length_flatMap_const {α β : Type} (l : List α) (f : α → List β)
    (k : ℕ) (h : ∀ a ∈ l, (f a).length = k) :
    (l.flatMap f).length = l.length * k := by
  induction l with
  | nil => simp
  | cons a t ih =>
    rw [List.flatMap_cons, List.length_append, h a (List.mem_cons_self a t),
      ih fun b hb => h b (List.mem_cons_of_mem a hb), List.length_cons,
      Nat.succ_mul]
    exact Nat.add_comm _ _

theorem tile_pairs_length (b1 b2 : Raster) (offx offy tsx tsy : ℕ) :
    (tile_pairs b1 b2 offx offy tsx tsy).length = tsy * tsx := by
  unfold tile_pairs
  rw [length_flatMap_const _ _ tsx fun a _ => by
    rw [List.length_map, List.length_range]]
  rw [List.length_range]

theorem sum_tsize (T S : ℕ) (hT : 0 < T) (hS : 0 < S) :
    ∑ t ∈ Finset.range (ntiles S T), tsize T S (t * T) = S := by
  have h := sum_tiles (fun _ => (1 : ℕ)) T S (ntiles S T)
  simp only [Finset.sum_const, smul_eq_mul, mul_one, Finset.card_range] at h
  have hle : S ≤ ntiles S T * T := by
    unfold ntiles
    have hdm := Nat.div_add_mod (S - 1) T
    have hmlt : (S - 1) % T < T := Nat.mod_lt _ hT
    rw [Nat.add_mul, one_mul, mul_comm ((S - 1) / T) T]
    generalize hA : T * ((S - 1) / T) = A at hdm ⊢
    omega
  unfold tsize
  rw [h]
  exact min_eq_right hle

theorem sum_swap_inner {M : Type} [AddCommMonoid M] (s1 s2 s3 : Finset ℕ)
    (F : ℕ → ℕ → ℕ → M) :
    ∑ i ∈ s1, ∑ j ∈ s2, ∑ t ∈ s3, F i j t =
      ∑ t ∈ s3, ∑ i ∈ s1, ∑ j ∈ s2, F i j t :=
  calc ∑ i ∈ s1, ∑ j ∈ s2, ∑ t ∈ s3, F i j t
      = ∑ i ∈ s1, ∑ t ∈ s3, ∑ j ∈ s2, F i j t :=
        Finset.sum_congr rfl fun _ _ => Finset.sum_comm
    _ = ∑ t ∈ s3, ∑ i ∈ s1, ∑ j ∈ s2, F i j t := Finset.sum_comm

theorem sum_get_raw_pixel_counts (b1 b2 : Raster) (d0 d1 : ℕ) (h0 : 0 < d0)
    (h1 : 0 < d1) (hW : 0 < b1.xSize) (hH : 0 < b1.ySize) :
    ∑ i ∈ Finset.range d0, ∑ j ∈ Finset.range d1,
      get_raw_pixel_counts b1 b2 d0 d1 i j = b1.xSize * b1.ySize := by
  unfold get_raw_pixel_counts
  rw [sum_swap_inner]
  have hswap : ∀ ty ∈ Finset.range (ntiles b1.ySize TILE),
      ∑ i ∈ Finset.range d0, ∑ j ∈ Finset.range d1,
        ∑ tx ∈ Finset.range (ntiles b1.xSize TILE),
          bincount_multivar
            (tile_pairs b1 b2 (tx * TILE) (ty * TILE)
              (tsize TILE b1.xSize (tx * TILE))
              (tsize TILE b1.ySize (ty * TILE))) d0 d1 i j =
      ∑ tx ∈ Finset.range (ntiles b1.xSize TILE),
        ∑ i ∈ Finset.range d0, ∑ j ∈ Finset.range d1,
          bincount_multivar
            (tile_pairs b1 b2 (tx * TILE) (ty * TILE)
              (tsize TILE b1.xSize (tx * TILE))
              (tsize TILE b1.ySize (ty * TILE))) d0 d1 i j :=
    fun ty _ => sum_swap_inner _ _ _ _
  rw [Finset.sum_congr rfl hswap]
  have hcell : ∀ ty ∈ Finset.range (ntiles b1.ySize TILE),
      ∑ tx ∈ Finset.range (ntiles b1.xSize TILE),
        ∑ i ∈ Finset.range d0, ∑ j ∈ Finset.range d1,
          bincount_multivar
            (tile_pairs b1 b2 (tx * TILE) (ty * TILE)
              (tsize TILE b1.xSize (tx * TILE))
              (tsize TILE b1.ySize (ty * TILE))) d0 d1 i j =
      ∑ tx ∈ Finset.range (ntiles b1.xSize TILE),
        tsize TILE b1.ySize (ty * TILE) * tsize TILE b1.xSize (tx * TILE) := by
    intro ty _
    refine Finset.sum_congr rfl fun tx _ => ?_
    rw [sum_bincount _ d0 d1 h0 h1, tile_pairs_length]
  rw [Finset.sum_congr rfl hcell]
  rw [← Finset.sum_mul_sum]
  rw [sum_tsize TILE b1.xSize (by decide) hW, sum_tsize TILE b1.ySize
    (by decide) hH]
  exact Nat.mul_comm b1.ySize b1.xSize

/-- C3: for every pair of rasters passing the engine's preconditions
(equal non-zero pixel dimensions W x H, exactly one band each, 8-bit
unsigned pixel type) and for any requested matrix dimensions, the
confusion matrix returned by `calculate_2d_class_histogram` has the sum
of all its cells equal to W x H: every pixel pair is tallied exactly
once.  The pixel functions are unconstrained, so values outside the
matrix range are covered: they are clipped into the final catch-all
row/column by the `mode='clip'` raveling rather than dropped or raised
as errors. -/
theorem C3_confusion_matrix_total (b1 b2 : Raster) (n_class n_class_ref : ℕ)
    (hx : b1.xSize = b2.xSize) (hy : b1.ySize = b2.ySize)
    (hb1 : b1.bands = 1) (hb2 : b2.bands = 1)
    (ht1 : b1.dataType = GDT_Byte) (ht2 : b2.dataType = GDT_Byte)
    (hW : 0 < b1.xSize) (hH : 0 < b1.ySize) :
    ∃ m, calculate_2d_class_histogram b1 b2 n_class n_class_ref =
        Except.ok m ∧
      ∑ i ∈ Finset.range m.dim0, ∑ j ∈ Finset.range m.dim1, m.entry i j =
        b1.xSize * b1.ySize := by
  have hcalc : calculate_2d_class_histogram b1 b2 n_class n_class_ref =
      Except.ok ⟨n_class + 1, n_class_ref + 1,
        get_raw_pixel_counts b1 b2 (n_class + 1) (n_class_ref + 1)⟩ := by
    unfold calculate_2d_class_histogram
    rw [if_neg (by simp [hx, hy]), if_neg (by simp [hb1, hb2]),
      if_neg (by simp [ht1, ht2])]
  exact ⟨_, hcalc, sum_get_raw_pixel_counts b1 b2 _ _ (Nat.succ_pos _)
    (Nat.succ_pos _) hW hH⟩

/-- C3 witness: a concrete 3x2 raster pair (the second raster constantly
9, outside the 2 x 3 matrix range, hence clipped), via
`C3_confusion_matrix_total`. -/
theorem C3_confusion_matrix_total_witness :
    ((0 : ℕ) < 3 ∧ (0 : ℕ) < 2) ∧
    ∃ m, calculate_2d_class_histogram ⟨3, 2, 1, 1, fun x y => x + y⟩
        ⟨3, 2, 1, 1, fun _ _ => 9⟩ 1 2 = Except.ok m ∧
      ∑ i ∈ Finset.range m.dim0, ∑ j ∈ Finset.range m.dim1, m.entry i j =
        3 * 2 :=
  ⟨⟨by decide, by decide⟩,
   C3_confusion_matrix_total ⟨3, 2, 1, 1, fun x y => x + y⟩
     ⟨3, 2, 1, 1, fun _ _ => 9⟩ 1 2 rfl rfl rfl rfl rfl rfl (by decide)
     (by decide)⟩

end DAMATS
